import Mathlib

/-!
Verification of the connection-lifecycle state machine of
`src/connection_base.cxx` (libpqxx's `pqxx::connection_base`).

The C++ class is shallowly embedded as a pure state machine:

* `ConnState` carries the data members of `connection_base`
  (`m_Conn`, `m_Completed`, `m_inhibit_reactivation`,
  `m_reactivation_avoidance`, `m_Trans`, `m_Vars`, `m_receivers`,
  `m_prepared`, `m_caps`, `m_serverversion`) together with ghost
  observables: the clock `hc` of transport health checks, the counter
  `ec` of statement submissions, the number `resets` of performed
  `Reset`s, and traces of batched sends (`sent`), statement submissions
  (`execTrace`), statement registrations (`prepTrace`), notification
  deliveries (`calls`), and notices (`notices`).
* `Env` is the transport/libpq collaborator (an oracle): transport
  health as a function of the health-check clock, outcomes of statement
  submissions, protocol and server versions, and the behaviour of
  notification receivers (whether a given receiver raises on a given
  payload).  The wire-protocol library is an external collaborator of
  this repository, so it is parametrised, not reimplemented.
* Every member function becomes `Env → ConnState → Except Err α × ConnState`.
  The state is returned on error paths as well, because C++ exceptions
  do not roll back member variables.

`std::multimap` / `std::map` members are embedded as association lists
whose key order (sorted, duplicates adjacent) is stated as a hypothesis
where a theorem depends on it.
-/

namespace Pqxx

/-- Outcome of one statement submission, as seen through the `result`
collaborator: the C++ code only inspects a result for presence
(`gate::result_connection`, i.e. a non-null `PGresult`, embedded as
`Option`) and for success (`CheckStatus`, embedded as the `ok` flag). -/
structure Res where
  ok : Bool
deriving DecidableEq

/-- `pqxx::prepare::internal::prepared_def`: definition text plus the
per-physical-connection `registered` flag.  (The struct itself lives in
a header outside `src/`; a fresh entry starts unregistered, matching
the spec's replay-on-demand registry.) -/
structure PreparedDef where
  definition : String
  registered : Bool
deriving DecidableEq

/-- One queued asynchronous notification (`PGnotify`): channel
(`relname`), payload (`extra`), and originating backend pid. -/
structure Notif where
  channel : String
  extra : String
  pid : Nat
deriving DecidableEq

/-- The error taxonomy thrown by `connection_base`
(`broken_connection`, `failure`, sql-level failure via `CheckStatus`,
`usage_error`, `argument_error`, `internal_error`,
`feature_not_supported`). -/
inductive Err
  | brokenConnection
  | failure (msg : String)
  | sqlFailure (msg : String)
  | usageError (msg : String)
  | argumentError (msg : String)
  | internalError (msg : String)
  | featureNotSupported (msg : String)
deriving DecidableEq

/-- The data members of `pqxx::connection_base`, plus ghost observables
(clocks and traces) that record its interaction with the transport. -/
structure ConnState where
  /-- `m_Conn`: whether a physical handle is present. -/
  conn : Bool
  /-- `m_Completed`. -/
  completed : Bool
  /-- `m_inhibit_reactivation`. -/
  inhibit : Bool
  /-- `m_reactivation_avoidance`: the reactivation-avoidance counter. -/
  debt : Nat
  /-- `m_Trans`: whether a transaction is registered as open. -/
  trans : Bool
  /-- `m_Vars` (`std::map`): session-variable shadow state, key-sorted. -/
  vars : List (String × String)
  /-- `m_receivers` (`std::multimap`): channel-sorted listener handles. -/
  receivers : List (String × Nat)
  /-- `m_prepared`: prepared-statement registry. -/
  prepared : List (String × PreparedDef)
  /-- `m_caps`: whether the capability table is populated. -/
  caps : Bool
  /-- `m_serverversion`. -/
  serverVersion : Int
  /-- Notifications buffered by the transport (`PQnotifies` queue). -/
  notifQueue : List Notif
  /-- Results queued on the wire (`PQgetResult` queue). -/
  pending : List Res
  /-- Ghost clock: number of transport status checks performed so far. -/
  hc : Nat
  /-- Ghost counter: number of statement submissions so far. -/
  ec : Nat
  /-- Ghost counter: number of `Reset`s actually performed. -/
  resets : Nat
  /-- Ghost trace: batched queries sent via `PQsendQuery`. -/
  sent : List String
  /-- Ghost trace: queries submitted via `PQexec`. -/
  execTrace : List String
  /-- Ghost trace: statement names registered via `PQprepare`. -/
  prepTrace : List String
  /-- Ghost trace: notification deliveries `(receiver, payload, pid)`. -/
  calls : List (Nat × String × Nat)
  /-- Ghost trace: messages passed to `process_notice`. -/
  notices : List String
deriving DecidableEq

/-- The external transport/libpq collaborator, as an oracle.  `health n`
is the transport health reported by the `n`-th status check;
`execR n` is the outcome of the `n`-th statement submission (`none` =
null `PGresult`); `recvRaise r e p` is `some msg` when receiver `r`
raises on payload `e` from pid `p`. -/
structure Env where
  health : Nat → Bool
  connectOk : Bool
  execR : Nat → Option Res
  protocolVersion : Nat
  newServerVersion : Int
  consumeOk : Bool
  errMsg : String
  recvRaise : Nat → String → Nat → Option String
  putCopyEnd : Int

/-- Advance the ghost health-check clock by one. -/
def tick (s : ConnState) : ConnState := { s with hc := s.hc + 1 }

/-- `Status() == CONNECTION_OK`: consults the transport
(`PQstatus(m_Conn)`; `CONNECTION_BAD` when the handle is null). -/
def statusOk (env : Env) (s : ConnState) : Bool × ConnState :=
  ((s.conn && env.health s.hc), tick s)

/-- `is_open()`: `m_Conn && m_Completed && (Status() == CONNECTION_OK)`. -/
def is_open (env : Env) (s : ConnState) : Bool × ConnState :=
  ((s.conn && s.completed && env.health s.hc), tick s)

/-- `ErrMsg()`: `PQerrorMessage` when a handle exists, else the fixed
fallback text. -/
def ErrMsg (env : Env) (s : ConnState) : String :=
  if s.conn then env.errMsg else ("No connection to database")

/-- `process_notice`: delivery to the errorhandler chain, recorded in
the ghost notice trace. -/
def process_notice (msg : String) (s : ConnState) : ConnState :=
  { s with notices := s.notices ++ [msg] }

/-- `m_policy.do_disconnect(m_Conn)`: the handle is freed, so queued
results and buffered notifications vanish with it. -/
def dropConn (s : ConnState) : ConnState :=
  { s with conn := false, pending := [], notifQueue := [] }

/-- `disconnect()`: `clearcaps()` then `do_disconnect`. -/
def disconnect (s : ConnState) : ConnState :=
  { (dropConn s) with caps := false }

/-- `PQexec(m_Conn, q)`: submits a statement, consuming one entry of
the submission oracle (a null handle yields a null result). -/
def pqexec (env : Env) (q : String) (s : ConnState) : Option Res × ConnState :=
  if s.conn then
    (env.execR s.ec, { s with ec := s.ec + 1, execTrace := s.execTrace ++ [q] })
  else (none, s)

/-- `PQgetResult(m_Conn)`: pops one queued result, null when drained. -/
def getResult (s : ConnState) : Option Res × ConnState :=
  match s.pending with
  | [] => (none, s)
  | r :: rest => (some r, { s with pending := rest })

/-- The fragments appended to `restore_query` in `SetupState`. -/
inductive Cmd
  | listen (channel : String)
  | set (name value : String)
deriving DecidableEq

/-- Text of one `restore_query` fragment. -/
def renderCmd : Cmd → String
  | .listen ch => ("LISTEN \"") ++ ch ++ ("\"; ")
  | .set n v => ("SET ") ++ n ++ ("=") ++ v ++ ("; ")

/-- The `LISTEN` fragments for the receiver list: one per channel that
differs from the previously emitted one (`Last` tracking; `Last`
starts as the empty string). -/
def listenCmds : List String → String → List Cmd
  | [], _ => []
  | ch :: rest, last =>
    if ch ≠ last then .listen ch :: listenCmds rest ch else listenCmds rest last

/-- The full `restore_query` fragment list built by `SetupState`:
deduplicated `LISTEN`s for the receivers, then one `SET` per session
variable. -/
def restoreCmds (receivers : List (String × Nat)) (vars : List (String × String)) :
    List Cmd :=
  (if receivers = [] then [] else listenCmds (receivers.map (fun p => p.1)) ("")) ++
    vars.map (fun p => Cmd.set p.1 p.2)

/-- The concatenated `restore_query` text. -/
def renderCmds (cs : List Cmd) : String := String.join (cs.map renderCmd)

/-- `SetupState()`: verify health (tearing the handle down and raising
`failure` otherwise), repopulate capabilities, mark every prepared
statement unregistered, and, when any shadow state exists, send the
whole `restore_query` batch in one `PQsendQuery` round trip and drain
all pending results. -/
def SetupState (env : Env) (s : ConnState) : Except Err Unit × ConnState :=
  if s.conn = false then
    (.error (.internalError ("SetupState() on no connection")), s)
  else
    let (ok0, s) := statusOk env s
    if ok0 = false then
      (.error (.failure (ErrMsg env s)), dropConn s)
    else
      -- read_capabilities()
      let s := { s with serverVersion := env.newServerVersion }
      if env.newServerVersion ≤ 90000 then
        (.error (.featureNotSupported ("Unsupported server version; 9.0 is the minimum.")), s)
      else if env.protocolVersion = 0 then
        (.error .brokenConnection, s)
      else if env.protocolVersion = 1 ∨ env.protocolVersion = 2 then
        (.error (.featureNotSupported ("Unsupported frontend/backend protocol version; 3.0 is the minimum.")), s)
      else
        let s := { s with caps := true }
        let s := { s with
          prepared := s.prepared.map
            (fun (p : String × PreparedDef) => (p.1, { p.2 with registered := false })) }
        let s :=
          if s.receivers = [] ∧ s.vars = [] then s
          else
            let q := renderCmds (restoreCmds s.receivers s.vars)
            -- one PQsendQuery round trip, then drain every pending result
            { s with sent := s.sent ++ [q], pending := [] }
        let s := { s with completed := true }
        let (o2, s) := is_open env s
        if o2 = false then (.error .brokenConnection, s) else (.ok (), s)

/-- `activate()`: no-op when open; `broken_connection` when reactivation
is inhibited; silent no-op under reactivation-avoidance debt; otherwise
connect via the policy, flip `m_Completed`, verify health and run
`SetupState`, unwinding the handle on `broken_connection`. -/
def activate (env : Env) (s : ConnState) : Except Err Unit × ConnState :=
  let (o, s) := is_open env s
  if o then (.ok (), s)
  else if s.inhibit then (.error .brokenConnection, s)
  else if s.debt ≠ 0 then (.ok (), s)
  else
    -- try { do_startconnect; do_completeconnect; ... }
    if env.connectOk = false then
      -- policy raises broken_connection; caught: disconnect, retract m_Completed
      (.error .brokenConnection, { (disconnect s) with completed := false })
    else
      let s := { s with conn := true }
      let s := { s with completed := true }
      let (o2, s) := is_open env s
      if o2 = false then
        (.error .brokenConnection, { (disconnect s) with completed := false })
      else
        match SetupState env s with
        | (.ok _, s1) => (.ok (), s1)
        | (.error Err.brokenConnection, s1) =>
          (.error .brokenConnection, { (disconnect s1) with completed := false })
        | (.error e, s1) => (.error e, { s1 with completed := false })

/-- `deactivate()`: silent return without a handle; `usage_error` while
a transaction is open; refusal by notice under avoidance debt; else
clear `m_Completed` and free the handle. -/
def deactivate (s : ConnState) : Except Err Unit × ConnState :=
  if s.conn = false then (.ok (), s)
  else if s.trans then
    (.error (.usageError ("Attempt to deactivate connection while transaction still open")), s)
  else if s.debt ≠ 0 then
    (.ok (), process_notice
      ("Attempt to deactivate connection while it is in a state that cannot be fully recovered later (ignoring)") s)
  else
    (.ok (), { (dropConn s) with completed := false })

/-- `Reset()`: `broken_connection` when inhibited; silent no-op under
debt; otherwise drop pending connect attempts, clear `m_Completed`, and
either reset the existing handle and re-run `SetupState`, or start a
fresh connection via `activate`.  Each performed reset bumps the ghost
`resets` counter. -/
def Reset (env : Env) (s : ConnState) : Except Err Unit × ConnState :=
  if s.inhibit then (.error .brokenConnection, s)
  else if s.debt ≠ 0 then (.ok (), s)
  else
    let s := { s with completed := false, resets := s.resets + 1 }
    if s.conn then SetupState env s
    else activate env s

/-- `check_result(R)`: `broken_connection` when the connection is not
open, `failure` on a null result, sql failure when the result's status
check fails; hands the checked result back on success. -/
def check_result (env : Env) (r : Option Res) (s : ConnState) :
    Except Err Res × ConnState :=
  let (o, s) := is_open env s
  if o = false then (.error .brokenConnection, s)
  else
    match r with
    | none => (.error (.failure (ErrMsg env s)), s)
    | some res =>
      if res.ok then (.ok res, s) else (.error (.sqlFailure (ErrMsg env s)), s)

/-- The notice text produced when a notification receiver raises. -/
def recvNoticeMsg (channel emsg : String) : String :=
  ("Exception in notification receiver \x27") ++ channel ++ ("\x27: ") ++ emsg ++ ("\n")

/-- One receiver invocation in `get_notifs`: the call is recorded, and
an exception from the receiver is caught and turned into a notice. -/
def recvStep (env : Env) (n : Notif) (s : ConnState) (p : String × Nat) : ConnState :=
  let s := { s with calls := s.calls ++ [(p.2, n.extra, n.pid)] }
  match env.recvRaise p.2 n.extra n.pid with
  | none => s
  | some emsg => process_notice (recvNoticeMsg n.channel emsg) s

/-- Delivery of one queued notification to every receiver registered on
the matching channel (`equal_range` on the multimap). -/
def deliverNotif (env : Env) (n : Notif) (s : ConnState) : ConnState :=
  (s.receivers.filter (fun p => p.1 = n.channel)).foldl (recvStep env n) s

/-- `get_notifs()`: nothing when the connection is not open;
`broken_connection` when `consume_input` fails; nothing while a
transaction is open; otherwise every queued notification is delivered
to every matching receiver and the count of messages is returned. -/
def get_notifs (env : Env) (s : ConnState) : Except Err Nat × ConnState :=
  let (o, s) := is_open env s
  if o = false then (.ok 0, s)
  else if env.consumeOk = false then (.error .brokenConnection, s)
  else if s.trans then (.ok 0, s)
  else
    let q := s.notifQueue
    (.ok q.length, q.foldl (fun acc n => deliverNotif env n acc) { s with notifQueue := [] })

/-- The retry loop of `Exec`: while retries remain, the result is null
and the connection is not open, reset and resubmit. -/
def execLoop (env : Env) (q : String) :
    Nat → Option Res → ConnState → Except Err (Option Res) × ConnState
  | 0, r, s => (.ok r, s)
  | n + 1, r, s =>
    match r with
    | some _ => (.ok r, s)
    | none =>
      let (o, s) := is_open env s
      if o then (.ok none, s)
      else
        match Reset env s with
        | (.error e, s1) => (.error e, s1)
        | (.ok _, s1) =>
          let (o2, s2) := is_open env s1
          if o2 then
            let (r2, s3) := pqexec env q s2
            execLoop env q n r2 s3
          else execLoop env q n none s2

/-- The tail of `Exec` after the retry loop: `check_result(R)` then
`get_notifs()`, returning the checked result. -/
def execTail (env : Env) (r2 : Option Res) (s3 : ConnState) :
    Except Err Res × ConnState :=
  match check_result env r2 s3 with
  | (.error e, s4) => (.error e, s4)
  | (.ok res, s4) =>
    match get_notifs env s4 with
    | (.error e, s5) => (.error e, s5)
    | (.ok _, s5) => (.ok res, s5)

/-- `Exec(Query, Retries)`: activate, submit, run the retry loop, check
the result, drain notifications, and return the result. -/
def Exec (env : Env) (q : String) (retries : Nat) (s : ConnState) :
    Except Err Res × ConnState :=
  match activate env s with
  | (.error e, s1) => (.error e, s1)
  | (.ok _, s1) =>
    match pqexec env q s1 with
    | (r, s2) =>
      match execLoop env q retries r s2 with
      | (.error e, s3) => (.error e, s3)
      | (.ok r2, s3) => execTail env r2 s3

/-- Replace the payload of the (first) entry for `name`. -/
def setPrepared (name : String) (d : PreparedDef) :
    List (String × PreparedDef) → List (String × PreparedDef)
  | [] => []
  | (n, pd) :: rest =>
    if n = name then (n, d) :: rest else (n, pd) :: setPrepared name d rest

/-- `prepare(name, definition)`: a clashing redefinition of a named
statement raises `argument_error`; the anonymous statement is silently
redefined (definition replaced, `registered` cleared); an identical
redefinition falls through; an unknown name is inserted fresh. -/
def prepare (name definition : String) (s : ConnState) :
    Except Err Unit × ConnState :=
  match s.prepared.lookup name with
  | some pd =>
    if definition ≠ pd.definition then
      if name ≠ "" then
        (.error (.argumentError
          (("Inconsistent redefinition of prepared statement ") ++ name)), s)
      else
        let pd1 : PreparedDef := { definition := definition, registered := false }
        (.ok (), { s with prepared := setPrepared name pd1 s.prepared })
    else (.ok (), s)
  | none =>
    let pd1 : PreparedDef := { definition := definition, registered := false }
    (.ok (), { s with prepared := s.prepared ++ [(name, pd1)] })

/-- `PQprepare`: registers a statement with the backend, consuming one
entry of the submission oracle and recording the name in the ghost
registration trace. -/
def pqprepare (env : Env) (name : String) (s : ConnState) :
    Option Res × ConnState :=
  if s.conn then
    (env.execR s.ec, { s with ec := s.ec + 1, prepTrace := s.prepTrace ++ [name] })
  else (none, s)

/-- `register_prepared(name)`: activate, look the statement up
(`argument_error` if unknown), and register it with the backend on
demand; the `registered` flag is only ever set for non-empty names. -/
def register_prepared (env : Env) (name : String) (s : ConnState) :
    Except Err Unit × ConnState :=
  match activate env s with
  | (.error e, s1) => (.error e, s1)
  | (.ok _, s1) =>
    match s1.prepared.lookup name with
    | none =>
      (.error (.argumentError
        (("Unknown prepared statement \x27") ++ name ++ ("\x27"))), s1)
    | some pd =>
      if pd.registered = false then
        let (r, s2) := pqprepare env name s1
        match check_result env r s2 with
        | (.error e, s3) => (.error e, s3)
        | (.ok _, s3) =>
          let pd1 : PreparedDef := { pd with registered := name ≠ "" }
          (.ok (), { s3 with prepared := setPrepared name pd1 s3.prepared })
      else (.ok (), s1)

/-- `EndCopyWrite()`: send stream termination via `PQputCopyEnd` and
map its return value; on 1 the final result is still fetched and
checked. -/
def EndCopyWrite (env : Env) (s : ConnState) : Except Err Unit × ConnState :=
  let res := env.putCopyEnd
  if res = -1 then
    (.error (.failure (("Write to table failed: ") ++ ErrMsg env s)), s)
  else if res = 0 then
    (.error (.internalError ("table write is inexplicably asynchronous")), s)
  else if res = 1 then
    let (r, s1) := getResult s
    match check_result env r s1 with
    | (.error e, s2) => (.error e, s2)
    | (.ok _, s2) => (.ok (), s2)
  else
    (.error (.internalError
      (("unexpected result ") ++ toString res ++ (" from PQputCopyEnd()"))), s)

/-- The state captured by `pqxx::internal::reactivation_avoidance_exemption`:
the snapshotted counter and whether the connection was open at
construction. -/
structure Exemption where
  m_count : Nat
  m_open : Bool
deriving DecidableEq

/-- Constructor of the exemption scope: snapshot the counter and the
openness of the connection, then zero the counter. -/
def exemptionCtor (env : Env) (s : ConnState) : Exemption × ConnState :=
  let count := s.debt
  let (o, s) := is_open env s
  (⟨count, o⟩, { s with debt := 0 })

/-- Destructor of the exemption scope: deactivate the connection when a
temporary reactivation occurred under outstanding debt, then restore
the snapshotted counter by adding it back. -/
def exemptionDtor (e : Exemption) (s : ConnState) :
    Except Err Unit × ConnState :=
  if e.m_count ≠ 0 ∧ e.m_open = false then
    match deactivate s with
    | (.error err, s1) => (.error err, s1)
    | (.ok _, s1) => (.ok (), { s1 with debt := s1.debt + e.m_count })
  else (.ok (), { s with debt := s.debt + e.m_count })

instance {ε α : Type} [DecidableEq ε] [DecidableEq α] : DecidableEq (Except ε α) :=
  fun x y =>
    match x, y with
    | .ok a, .ok b =>
      if h : a = b then .isTrue (by rw [h]) else .isFalse (fun he => h (Except.ok.inj he))
    | .error a, .error b =>
      if h : a = b then .isTrue (by rw [h]) else .isFalse (fun he => h (Except.error.inj he))
    | .ok _, .error _ => .isFalse (fun he => Except.noConfusion he)
    | .error _, .ok _ => .isFalse (fun he => Except.noConfusion he)

/-- Number of `LISTEN` fragments for channel `ch` in a fragment list. -/
def listenCount (ch : String) (l : List Cmd) : Nat :=
  (l.filter (fun c => c = Cmd.listen ch)).length

/-- Number of `SET nm=v` fragments in a fragment list. -/
def setCount (nm v : String) (l : List Cmd) : Nat :=
  (l.filter (fun c => c = Cmd.set nm v)).length

/-- The notification deliveries `get_notifs` owes: one call per queued
message and per receiver registered on the matching channel, in queue
order.  (Note this does not depend on which receivers raise.) -/
def deliveredCalls (s : ConnState) : List (Nat × String × Nat) :=
  s.notifQueue.flatMap (fun n =>
    (s.receivers.filter (fun p => p.1 = n.channel)).map (fun p => (p.2, n.extra, n.pid)))

/-- The notices `get_notifs` emits: one per delivery whose receiver
raises. -/
def raisedNotices (env : Env) (s : ConnState) : List String :=
  s.notifQueue.flatMap (fun n =>
    (s.receivers.filter (fun p => p.1 = n.channel)).filterMap (fun p =>
      (env.recvRaise p.2 n.extra n.pid).map (fun e => recvNoticeMsg n.channel e)))

/-- A freshly constructed, unconnected `connection_base`. -/
def s0 : ConnState :=
  { conn := false, completed := false, inhibit := false, debt := 0, trans := false,
    vars := [], receivers := [], prepared := [], caps := false, serverVersion := 0,
    notifQueue := [], pending := [], hc := 0, ec := 0, resets := 0, sent := [],
    execTrace := [], prepTrace := [], calls := [], notices := [] }

/-- A benign transport: always healthy, every submission succeeds,
modern server and protocol. -/
def env0 : Env :=
  { health := fun _ => true, connectOk := true, execR := fun _ => some ⟨true⟩,
    protocolVersion := 3, newServerVersion := 90600, consumeOk := true,
    errMsg := "", recvRaise := fun _ _ _ => none, putCopyEnd := 1 }

/-- A closed connection carrying reactivation-avoidance debt while
reactivation is inhibited (as `simulate_failure` leaves it). -/
def sB : ConnState := { s0 with inhibit := true, debt := 1 }

/-- An open connection whose statement `s` is declared and currently
registered with the backend. -/
def sP : ConnState :=
  { s0 with
      conn := true
      completed := true
      prepared := [(("s"), ⟨("SELECT 1"), true⟩)] }

/-- A connection holding one receiver subscribed to the empty channel
name. -/
def sE : ConnState := { s0 with conn := true, receivers := [((""), 7)] }

/-- Transport schedule for the `Exec` retry scenario: the health checks
of the retry loop (clock values 1, 4 and 5) report the transport down,
every later check reports it healthy again; the first submission of the
query yields no result (the connection dropped mid-query), the
resubmission succeeds. -/
def env3 : Env :=
  { env0 with
    health := fun n => !(n == 1 || n == 4 || n == 5),
    execR := fun n => if n == 0 then none else some ⟨true⟩ }

/-- An open, healthy connection with no shadow state. -/
def s3 : ConnState := { s0 with conn := true, completed := true }

/-- An open connection with two receivers on channel `a`, one on
channel `b`, and one shadow session variable. -/
def sW : ConnState :=
  { s0 with
      conn := true
      completed := true
      receivers := [(("a"), 1), (("a"), 2), (("b"), 3)]
      vars := [(("x"), ("1"))] }

/-- A transport on which receiver 1 raises (with message `boom`) on
every notification while every other receiver returns normally. -/
def envN : Env := { env0 with recvRaise := fun r _ _ => if r == 1 then some ("boom") else none }

/-- An open connection with receivers 1 and 2 listening on channel `c`
and one queued notification for `c`. -/
def sN : ConnState :=
  { s0 with
      conn := true
      completed := true
      receivers := [(("c"), 1), (("c"), 2)]
      notifQueue := [⟨("c"), ("p"), 5⟩] }

/-- `activate` on an open connection is a no-op (only the ghost
health-check clock advances). -/
theorem activate_open (env : Env) (s : ConnState)
    (h1 : s.conn = true) (h2 : s.completed = true) (hh : env.health s.hc = true) :
    activate env s = (.ok (), tick s) := by
  simp [activate, is_open, h1, h2, hh]

/-- C10: with the physical handle absent, `deactivate` returns
immediately and silently — no error is raised and no notice is emitted
(the state, notice trace included, is unchanged) even when a
transaction is registered as open or the reactivation-avoidance counter
is nonzero, because the handle-absence check precedes both. -/
theorem deactivate_absent_handle_silent (s : ConnState) (h : s.conn = false) :
    deactivate s = (.ok (), s) := by
  simp [deactivate, h]

theorem deactivate_absent_handle_silent_witness :
    ({ s0 with trans := true, debt := 3 } : ConnState).conn = false ∧
      deactivate { s0 with trans := true, debt := 3 } =
        (.ok (), { s0 with trans := true, debt := 3 }) :=
  ⟨rfl, deactivate_absent_handle_silent { s0 with trans := true, debt := 3 } rfl⟩

/-- C6 counterexample: a state with an open transaction and nonzero
avoidance debt but no physical handle, on which `deactivate` raises no
`usage_error` and emits no notice — it returns silently, refuting the
claim's unconditional "whenever a transaction is registered as open". -/
theorem deactivate_trans_no_handle_counterexample :
    ({ s0 with trans := true, debt := 5 } : ConnState).trans = true ∧
    ({ s0 with trans := true, debt := 5 } : ConnState).debt ≠ 0 ∧
    deactivate { s0 with trans := true, debt := 5 } =
      (.ok (), { s0 with trans := true, debt := 5 }) := by
  refine ⟨rfl, by decide, ?_⟩
  simp [deactivate, s0]

/-- C6 (amended: provided the physical handle is present):
`deactivate` raises `usage_error` when a transaction is open; with
nonzero avoidance debt it is refused by a notice, no error, handle and
completed flag untouched; otherwise it clears the completed flag and
tears the handle down. -/
theorem deactivate_behaviour (s : ConnState) (hconn : s.conn = true) :
    (s.trans = true → deactivate s =
      (.error (.usageError
        ("Attempt to deactivate connection while transaction still open")), s)) ∧
    (s.trans = false → s.debt ≠ 0 → deactivate s =
      (.ok (), process_notice
        ("Attempt to deactivate connection while it is in a state that cannot be fully recovered later (ignoring)") s)) ∧
    (s.trans = false → s.debt = 0 → deactivate s =
      (.ok (),
        { s with
            completed := false
            conn := false
            pending := []
            notifQueue := [] })) := by
  refine ⟨fun ht => ?_, fun ht hd => ?_, fun ht hd => ?_⟩
  · simp [deactivate, hconn, ht]
  · simp [deactivate, hconn, ht, hd, dropConn]
  · simp [deactivate, hconn, ht, hd, dropConn]

theorem deactivate_behaviour_witness :
    (({ s0 with conn := true, trans := true } : ConnState).conn = true ∧
      ({ s0 with conn := true, trans := true } : ConnState).trans = true) ∧
    deactivate { s0 with conn := true, trans := true } =
      (.error (.usageError
        ("Attempt to deactivate connection while transaction still open")),
       { s0 with conn := true, trans := true }) :=
  ⟨⟨rfl, rfl⟩, (deactivate_behaviour { s0 with conn := true, trans := true } rfl).1 rfl⟩

/-- C4: redeclaring an already-declared statement with different text
raises `argument_error` for a non-empty name and leaves the registry
untouched, while the anonymous (empty-name) statement is silently
redefined: its definition is replaced and its registered flag
cleared. -/
theorem prepare_redefinition :
    (∀ (s : ConnState) (name d : String) (pd : PreparedDef),
      s.prepared.lookup name = some pd → d ≠ pd.definition → name ≠ "" →
      prepare name d s = (.error (.argumentError
        (("Inconsistent redefinition of prepared statement ") ++ name)), s)) ∧
    (∀ (s : ConnState) (d : String) (pd : PreparedDef),
      s.prepared.lookup ("") = some pd → d ≠ pd.definition →
      prepare ("") d s =
        (.ok (), { s with prepared := setPrepared ("") ⟨d, false⟩ s.prepared })) := by
  constructor
  · intro s name d pd hl hd hn
    simp [prepare, hl, hd, hn]
  · intro s d pd hl hd
    simp [prepare, hl, hd]

theorem prepare_redefinition_witness :
    (sP.prepared.lookup ("s") = some ⟨("SELECT 1"), true⟩ ∧
      ("SELECT 2") ≠ ("SELECT 1") ∧ ("s") ≠ ("" : String)) ∧
    prepare ("s") ("SELECT 2") sP = (.error (.argumentError
      (("Inconsistent redefinition of prepared statement ") ++ ("s"))), sP) :=
  ⟨⟨by decide, by decide, by decide⟩,
    prepare_redefinition.1 sP ("s") ("SELECT 2") ⟨("SELECT 1"), true⟩
      (by decide) (by decide) (by decide)⟩

/-- C5 counterexample: statement `s` is declared and currently
registered; redeclaring it with identical text leaves the state —
including the `registered` flag, still `true` — completely unchanged,
so the next use sends no fresh registration request (empty `PQprepare`
trace), refuting "the registered flag is false so the next use sends a
fresh registration request". -/
theorem prepare_identical_registered_counterexample :
    prepare ("s") ("SELECT 1") sP = (.ok (), sP) ∧
    sP.prepared.lookup ("s") = some ⟨("SELECT 1"), true⟩ ∧
    (register_prepared env0 ("s") ((prepare ("s") ("SELECT 1") sP).2)).2.prepTrace
      = [] := by
  refine ⟨?_, by decide, ?_⟩ <;> decide

/-- C5 (amended): redeclaring an already-declared statement with
identical text is a complete silent no-op — the entry, its `registered`
flag included, is unchanged; consequently it does not force
re-registration: if the statement is currently registered, the next
use sends no registration request. -/
theorem prepare_identical_noop :
    (∀ (s : ConnState) (name d : String) (pd : PreparedDef),
      s.prepared.lookup name = some pd → d = pd.definition →
      prepare name d s = (.ok (), s)) ∧
    (∀ (env : Env) (name : String) (s : ConnState) (pd : PreparedDef),
      s.conn = true → s.completed = true → env.health s.hc = true →
      s.prepared.lookup name = some pd → pd.registered = true →
      register_prepared env name s = (.ok (), tick s)) := by
  constructor
  · intro s name d pd hl hd
    simp [prepare, hl, hd]
  · intro env name s pd h1 h2 hh hl hr
    simp [register_prepared, activate_open env s h1 h2 hh, tick, hl, hr]

theorem prepare_identical_noop_witness :
    (sP.prepared.lookup ("s") = some ⟨("SELECT 1"), true⟩ ∧
      ("SELECT 1") = (⟨("SELECT 1"), true⟩ : PreparedDef).definition) ∧
    prepare ("s") ("SELECT 1") sP = (.ok (), sP) :=
  ⟨⟨by decide, rfl⟩,
    prepare_identical_noop.1 sP ("s") ("SELECT 1") ⟨("SELECT 1"), true⟩
      (by decide) rfl⟩

/-- C2 counterexample: a state with avoidance counter 1 in which
reactivation is inhibited and the connection closed; `activate()` and
`Reset()` do not return without error — both raise
`broken_connection`, because the inhibition check precedes the
counter check. -/
theorem activate_under_debt_inhibited_counterexample :
    sB.debt ≠ 0 ∧
    (activate env0 sB).1 = .error .brokenConnection ∧
    (Reset env0 sB).1 = .error .brokenConnection := by
  refine ⟨by decide, ?_, ?_⟩ <;> decide

/-- C2 (amended: provided the reactivation-inhibited flag is not set):
while the reactivation-avoidance counter is nonzero, `activate()` and
`Reset()` return without error and leave the physical handle, the
completed flag and all other connectivity state unchanged (`activate`
advances only the ghost health-check clock of its `is_open` test;
`Reset` returns the state untouched). -/
theorem activate_reset_noop_under_debt (env : Env) (s : ConnState)
    (hd : s.debt ≠ 0) (hi : s.inhibit = false) :
    activate env s = (.ok (), tick s) ∧ Reset env s = (.ok (), s) := by
  constructor
  · by_cases ho : (s.conn && s.completed && env.health s.hc) = true <;>
      simp [activate, is_open, tick, ho, hi, hd]
  · simp [Reset, hi, hd]

theorem activate_reset_noop_under_debt_witness :
    (({ s0 with debt := 2 } : ConnState).debt ≠ 0 ∧
      ({ s0 with debt := 2 } : ConnState).inhibit = false) ∧
    (activate env0 { s0 with debt := 2 } = (.ok (), tick { s0 with debt := 2 }) ∧
      Reset env0 { s0 with debt := 2 } = (.ok (), { s0 with debt := 2 })) :=
  ⟨⟨by decide, rfl⟩,
    activate_reset_noop_under_debt env0 { s0 with debt := 2 } (by decide) rfl⟩

/-- C7 counterexample: an exemption constructed with snapshotted debt 2
while the connection was closed, destroyed while the handle is present
and a transaction is registered as open (the counter still zero, as the
constructor left it).  The destructor calls `deactivate()` before
restoring the debt, and `deactivate()` raises `usage_error` on the open
transaction — so destruction does not return normally and the counter
is left at 0, not restored to the snapshotted 2.  This refutes
"on destruction (every exit path) the original debt value is restored
unconditionally". -/
theorem exemption_trans_no_restore_counterexample :
    (⟨2, false⟩ : Exemption).m_count ≠ 0 ∧
    (⟨2, false⟩ : Exemption).m_open = false ∧
    ({ s0 with conn := true, trans := true } : ConnState).trans = true ∧
    ({ s0 with conn := true, trans := true } : ConnState).debt = 0 ∧
    exemptionDtor ⟨2, false⟩ { s0 with conn := true, trans := true } =
      (.error (.usageError
        ("Attempt to deactivate connection while transaction still open")),
       { s0 with conn := true, trans := true }) ∧
    (exemptionDtor ⟨2, false⟩
      { s0 with conn := true, trans := true }).2.debt = 0 := by
  refine ⟨by decide, rfl, rfl, rfl, ?_, ?_⟩ <;> decide

/-- C7 (amended: the restore runs on every exit path on which the
destructor's deactivation does not throw): construction snapshots the
counter and zeroes it; on destruction the snapshot is added back —
restoring the original value exactly when the counter is still zero —
whenever no transaction is open at destruction, and unconditionally
when no deactivation is attempted (snapshotted debt zero or connection
open at construction); the connection is deactivated exactly when the
snapshotted debt was nonzero and the connection was not open at
construction, and the teardown really happens (handle freed, completed
flag cleared), which is only possible because deactivation runs before
the debt is restored.  On that deactivation path, if the handle is
present and a transaction is open at destruction, `deactivate` raises
`usage_error` first and the debt is left un-restored. -/
theorem exemption_restore :
    (∀ (env : Env) (s : ConnState),
      (exemptionCtor env s).1.m_count = s.debt ∧ (exemptionCtor env s).2.debt = 0) ∧
    (∀ (e : Exemption) (s : ConnState), s.trans = false →
      (exemptionDtor e s).1 = .ok () ∧
      (exemptionDtor e s).2.debt = s.debt + e.m_count) ∧
    (∀ (e : Exemption) (s : ConnState), e.m_count = 0 ∨ e.m_open = true →
      exemptionDtor e s = (.ok (), { s with debt := s.debt + e.m_count })) ∧
    (∀ (e : Exemption) (s : ConnState), s.trans = false → s.debt = 0 →
      e.m_count ≠ 0 → e.m_open = false →
      (exemptionDtor e s).1 = .ok () ∧ (exemptionDtor e s).2.debt = e.m_count ∧
        (exemptionDtor e s).2.conn = false ∧
        (s.conn = true → (exemptionDtor e s).2.completed = false)) ∧
    (∀ (e : Exemption) (s : ConnState), e.m_count ≠ 0 → e.m_open = false →
      s.conn = true → s.trans = true →
      exemptionDtor e s =
        (.error (.usageError
          ("Attempt to deactivate connection while transaction still open")), s)) := by
  refine ⟨fun env s => ⟨rfl, rfl⟩, fun e s ht => ?_, fun e s h => ?_,
    fun e s ht hd hc ho => ?_, fun e s hc ho hcn htr => ?_⟩
  · by_cases hb : e.m_count ≠ 0 ∧ e.m_open = false
    · by_cases hcn : s.conn = true
      · by_cases hdz : s.debt = 0
        · constructor <;>
            simp [exemptionDtor, hb, deactivate, hcn, ht, hdz, dropConn]
        · constructor <;>
            simp [exemptionDtor, hb, deactivate, hcn, ht, hdz, process_notice]
      · have hcn' : s.conn = false := by revert hcn; cases s.conn <;> simp
        constructor <;> simp [exemptionDtor, hb, deactivate, hcn']
    · constructor <;> simp [exemptionDtor, hb]
  · have hb : ¬(e.m_count ≠ 0 ∧ e.m_open = false) := by
      rcases h with h | h <;> simp [h]
    simp [exemptionDtor, hb]
  · have hb : e.m_count ≠ 0 ∧ e.m_open = false := ⟨hc, ho⟩
    by_cases hcn : s.conn = true
    · refine ⟨?_, ?_, ?_, fun _ => ?_⟩ <;>
        simp [exemptionDtor, hb, deactivate, hcn, ht, hd, dropConn]
    · have hcn' : s.conn = false := by revert hcn; cases s.conn <;> simp
      refine ⟨?_, ?_, ?_, fun hx => absurd hx (by simp [hcn'])⟩ <;>
        simp [exemptionDtor, hb, deactivate, hcn', hd]
  · have hb : e.m_count ≠ 0 ∧ e.m_open = false := ⟨hc, ho⟩
    simp [exemptionDtor, hb, deactivate, hcn, htr]

theorem exemption_restore_witness :
    ((⟨2, false⟩ : Exemption).m_count ≠ 0 ∧ (⟨2, false⟩ : Exemption).m_open = false ∧
      ({ s0 with conn := true, completed := true } : ConnState).trans = false ∧
      ({ s0 with conn := true, completed := true } : ConnState).debt = 0) ∧
    ((exemptionDtor ⟨2, false⟩ { s0 with conn := true, completed := true }).1 = .ok () ∧
      (exemptionDtor ⟨2, false⟩ { s0 with conn := true, completed := true }).2.debt = 2 ∧
      (exemptionDtor ⟨2, false⟩ { s0 with conn := true, completed := true }).2.conn = false ∧
      (({ s0 with conn := true, completed := true } : ConnState).conn = true →
        (exemptionDtor ⟨2, false⟩
          { s0 with conn := true, completed := true }).2.completed = false)) :=
  ⟨⟨by decide, rfl, rfl, rfl⟩,
    exemption_restore.2.2.2.1 ⟨2, false⟩ { s0 with conn := true, completed := true }
      rfl rfl (by decide) rfl⟩

/-- C9: `EndCopyWrite` maps the return value of the stream-termination
call as: 1 is success, after which the final result is still fetched
(popped from the pending queue) and checked (sql failure surfaces); 0
raises the impossible-asynchronous-state `internal_error`; -1 raises a
write-failure `failure`; any other value raises the
unexpected-protocol-response `internal_error`. -/
theorem endCopyWrite_cases :
    (∀ (env : Env) (s : ConnState) (r : Res) (rest : List Res),
      env.putCopyEnd = 1 → s.pending = r :: rest →
      s.conn = true → s.completed = true → env.health s.hc = true →
      EndCopyWrite env s =
        (if r.ok then (.ok (), { tick s with pending := rest })
         else (.error (.sqlFailure env.errMsg), { tick s with pending := rest }))) ∧
    (∀ (env : Env) (s : ConnState), env.putCopyEnd = 0 →
      EndCopyWrite env s =
        (.error (.internalError ("table write is inexplicably asynchronous")), s)) ∧
    (∀ (env : Env) (s : ConnState), env.putCopyEnd = -1 →
      EndCopyWrite env s =
        (.error (.failure (("Write to table failed: ") ++ ErrMsg env s)), s)) ∧
    (∀ (env : Env) (s : ConnState),
      env.putCopyEnd ≠ -1 → env.putCopyEnd ≠ 0 → env.putCopyEnd ≠ 1 →
      EndCopyWrite env s = (.error (.internalError
        (("unexpected result ") ++ toString env.putCopyEnd ++ (" from PQputCopyEnd()"))), s)) := by
  refine ⟨fun env s r rest hp hpend h1 h2 hh => ?_, fun env s hp => ?_,
    fun env s hp => ?_, fun env s hm1 h0 h1 => ?_⟩
  · by_cases hro : r.ok = true <;>
      simp [EndCopyWrite, hp, getResult, hpend, check_result, is_open, tick,
        h1, h2, hh, hro, ErrMsg]
  · simp [EndCopyWrite, hp]
  · simp [EndCopyWrite, hp]
  · simp [EndCopyWrite, hm1, h0, h1]

/-- Folding the per-receiver delivery step only appends to the call and
notice traces: one recorded call per receiver, one notice per receiver
that raises. -/
theorem recvStep_foldl (env : Env) (n : Notif) (l : List (String × Nat)) (s : ConnState) :
    l.foldl (recvStep env n) s =
      { s with
          calls := s.calls ++ l.map (fun p => (p.2, n.extra, n.pid))
          notices := s.notices ++ l.filterMap (fun p =>
            (env.recvRaise p.2 n.extra n.pid).map (fun e => recvNoticeMsg n.channel e)) } := by
  induction l generalizing s with
  | nil => simp
  | cons a t ih =>
    cases h : env.recvRaise a.2 n.extra n.pid with
    | none => simp [recvStep, h, ih, List.append_assoc]
    | some e => simp [recvStep, h, ih, process_notice, List.append_assoc]

/-- Folding notification delivery over a message list appends, per
message, the calls to every matching receiver and the notices of every
raising one. -/
theorem deliverNotif_foldl (env : Env) (ns : List Notif) (s : ConnState) :
    ns.foldl (fun acc n => deliverNotif env n acc) s =
      { s with
          calls := s.calls ++ ns.flatMap (fun n =>
            (s.receivers.filter (fun p => p.1 = n.channel)).map
              (fun p => (p.2, n.extra, n.pid)))
          notices := s.notices ++ ns.flatMap (fun n =>
            (s.receivers.filter (fun p => p.1 = n.channel)).filterMap (fun p =>
              (env.recvRaise p.2 n.extra n.pid).map
                (fun e => recvNoticeMsg n.channel e))) } := by
  induction ns generalizing s with
  | nil => simp
  | cons a t ih =>
    rw [List.foldl_cons, ih]
    simp [deliverNotif, recvStep_foldl, List.flatMap_cons, List.append_assoc]

/-- C8: while a transaction is open, `get_notifs` delivers nothing (the
queue is left untouched and no receiver is called); otherwise every
queued message is delivered to every receiver registered on the
matching channel — the recorded call trace `deliveredCalls` does not
depend on the receivers' raise behaviour at all, so an exception from
one listener never suppresses the invocation of the remaining
listeners on that message or the processing of remaining messages; each
raising listener is reported through the notice path
(`raisedNotices`). -/
theorem get_notifs_delivery :
    (∀ (env : Env) (s : ConnState),
      s.conn = true → s.completed = true → env.health s.hc = true →
      env.consumeOk = true → s.trans = true →
      get_notifs env s = (.ok 0, tick s)) ∧
    (∀ (env : Env) (s : ConnState),
      s.conn = true → s.completed = true → env.health s.hc = true →
      env.consumeOk = true → s.trans = false →
      get_notifs env s = (.ok s.notifQueue.length,
        { s with
            hc := s.hc + 1
            notifQueue := []
            calls := s.calls ++ deliveredCalls s
            notices := s.notices ++ raisedNotices env s })) := by
  constructor
  · intro env s h1 h2 hh hci ht
    simp [get_notifs, is_open, h1, h2, hh, hci, ht, tick]
  · intro env s h1 h2 hh hci ht
    simp [get_notifs, is_open, h1, h2, hh, hci, ht, tick, deliverNotif_foldl,
      deliveredCalls, raisedNotices]

theorem get_notifs_delivery_witness :
    (sN.conn = true ∧ sN.completed = true ∧ envN.health sN.hc = true ∧
      envN.consumeOk = true ∧ sN.trans = false) ∧
    get_notifs envN sN = (.ok sN.notifQueue.length,
      { sN with
          hc := sN.hc + 1
          notifQueue := []
          calls := sN.calls ++ deliveredCalls sN
          notices := sN.notices ++ raisedNotices envN sN }) :=
  ⟨⟨rfl, rfl, rfl, rfl, rfl⟩, get_notifs_delivery.2 envN sN rfl rfl rfl rfl rfl⟩

theorem endCopyWrite_cases_witness :
    (env0.putCopyEnd = 1 ∧
      ({ s3 with pending := [⟨true⟩] } : ConnState).pending = [(⟨true⟩ : Res)] ∧
      ({ s3 with pending := [⟨true⟩] } : ConnState).conn = true ∧
      ({ s3 with pending := [⟨true⟩] } : ConnState).completed = true ∧
      env0.health ({ s3 with pending := [⟨true⟩] } : ConnState).hc = true) ∧
    EndCopyWrite env0 { s3 with pending := [⟨true⟩] } =
      (if (⟨true⟩ : Res).ok then
        (.ok (), { tick { s3 with pending := [⟨true⟩] } with pending := [] })
       else (.error (.sqlFailure env0.errMsg),
        { tick { s3 with pending := [⟨true⟩] } with pending := [] })) :=
  ⟨⟨rfl, rfl, rfl, rfl, rfl⟩,
    endCopyWrite_cases.1 env0 { s3 with pending := [⟨true⟩] } ⟨true⟩ []
      rfl rfl rfl rfl rfl⟩

/-- `SetupState` never performs a reset. -/
theorem SetupState_resets (env : Env) (s : ConnState) :
    (SetupState env s).2.resets = s.resets := by
  unfold SetupState statusOk is_open
  simp only []
  split_ifs <;> rfl

/-- `activate` never performs a reset. -/
theorem activate_resets (env : Env) (s : ConnState) :
    (activate env s).2.resets = s.resets := by
  unfold activate is_open
  simp only []
  split_ifs <;> try rfl
  all_goals
    split <;> rename_i heq <;>
      (have h2 := congrArg (fun p : Except Err Unit × ConnState => p.2.resets) heq
       simp only [SetupState_resets] at h2
       simp [tick] at h2
       simp [disconnect, dropConn]
       omega)

/-- A statement submission never performs a reset. -/
theorem pqexec_resets (env : Env) (q : String) (s : ConnState) :
    (pqexec env q s).2.resets = s.resets := by
  unfold pqexec
  split <;> rfl

/-- `check_result` never performs a reset. -/
theorem check_result_resets (env : Env) (r : Option Res) (s : ConnState) :
    (check_result env r s).2.resets = s.resets := by
  unfold check_result is_open
  simp only []
  split_ifs <;> try rfl
  all_goals split <;> first | rfl | (split_ifs <;> rfl)

/-- `get_notifs` never performs a reset. -/
theorem get_notifs_resets (env : Env) (s : ConnState) :
    (get_notifs env s).2.resets = s.resets := by
  unfold get_notifs is_open
  simp only []
  split_ifs <;> first
    | rfl
    | (rw [deliverNotif_foldl]; rfl)

/-- `Reset` performs at most one reset. -/
theorem Reset_resets_le (env : Env) (s : ConnState) :
    (Reset env s).2.resets ≤ s.resets + 1 := by
  unfold Reset
  simp only []
  split_ifs
  · exact Nat.le_succ _
  · exact Nat.le_succ _
  · rw [SetupState_resets]
  · rw [activate_resets]

/-- The retry loop performs at most `n` resets. -/
theorem execLoop_resets_le (env : Env) (q : String) :
    ∀ (n : Nat) (r : Option Res) (s : ConnState),
      (execLoop env q n r s).2.resets ≤ s.resets + n := by
  intro n
  induction n with
  | zero => intro r s; exact Nat.le_refl _
  | succ m ih =>
    intro r s
    match r with
    | some res => exact Nat.le_add_right _ _
    | none =>
      simp only [execLoop, is_open]
      split
      · exact Nat.le_add_right _ _
      · cases hR : Reset env (tick s) with
        | mk e1 s1 =>
          have hres1 : s1.resets ≤ s.resets + 1 := by
            have := Reset_resets_le env (tick s)
            rw [hR] at this
            simpa [tick] using this
          cases e1 with
          | error e =>
            show s1.resets ≤ s.resets + (m + 1)
            omega
          | ok u =>
            simp only []
            split
            · cases hP : pqexec env q (tick s1) with
              | mk r2 s3 =>
                simp only [hP]
                have hres3 : s3.resets = s1.resets := by
                  have := pqexec_resets env q (tick s1)
                  rw [hP] at this
                  simpa [tick] using this
                calc (execLoop env q m r2 s3).2.resets ≤ s3.resets + m := ih r2 s3
                  _ ≤ s.resets + (m + 1) := by omega
            · calc (execLoop env q m none (tick s1)).2.resets
                  ≤ (tick s1).resets + m := ih none (tick s1)
                _ ≤ s.resets + (m + 1) := by simp [tick]; omega

/-- The retry loop exits immediately on a non-null result. -/
theorem execLoop_some (env : Env) (q : String) (n : Nat) (r : Res) (s : ConnState) :
    execLoop env q n (some r) s = (.ok (some r), s) := by
  cases n <;> rfl

/-- The retry loop exits immediately, without resetting, when the
connection is open at its first health check. -/
theorem execLoop_none_open (env : Env) (q : String) (n : Nat) (s : ConnState)
    (h1 : s.conn = true) (h2 : s.completed = true) (hh : env.health s.hc = true) :
    execLoop env q n none s = (.ok none, if n = 0 then s else tick s) := by
  cases n with
  | zero => rfl
  | succ m => simp [execLoop, is_open, h1, h2, hh]

/-- The tail of `Exec` (result check plus notification drain) never
performs a reset. -/
theorem execTail_resets (env : Env) (r2 : Option Res) (s3 : ConnState) :
    (execTail env r2 s3).2.resets = s3.resets := by
  unfold execTail
  cases hC : check_result env r2 s3 with
  | mk e1 s4 =>
    have h4 : s4.resets = s3.resets := by
      have := check_result_resets env r2 s3
      rw [hC] at this
      exact this
    cases e1 with
    | error e =>
      show s4.resets = s3.resets
      exact h4
    | ok res =>
      show (match get_notifs env s4 with
            | (.error e, s5) => ((.error e : Except Err Res), s5)
            | (.ok _, s5) => ((.ok res : Except Err Res), s5)).2.resets = s3.resets
      cases hG : get_notifs env s4 with
      | mk e2 s5 =>
        have h5 : s5.resets = s4.resets := by
          have := get_notifs_resets env s4
          rw [hG] at this
          exact this
        cases e2 with
        | error e =>
          show s5.resets = s3.resets
          omega
        | ok v =>
          show s5.resets = s3.resets
          omega

/-- C3: `Exec(query, retries)` performs at most `retries` resets on any
schedule; with the connection open and healthy it never resets when the
submission yields a (non-null) result — in particular a failed result
on a healthy connection is never retried — nor when the connection
still reports healthy at the loop's check; and on the concrete schedule
`env3` (the retry loop's health checks fail twice, then the transport
is healthy, and the resubmission succeeds) `Exec` with `retries = 2`
returns the successful result having performed exactly two resets. -/
theorem exec_retry_policy :
    (∀ (env : Env) (q : String) (n : Nat) (s : ConnState),
      (Exec env q n s).2.resets ≤ s.resets + n) ∧
    (∀ (env : Env) (q : String) (n : Nat) (s : ConnState) (r : Res),
      s.conn = true → s.completed = true → env.health s.hc = true →
      env.execR s.ec = some r → (Exec env q n s).2.resets = s.resets) ∧
    (∀ (env : Env) (q : String) (n : Nat) (s : ConnState),
      s.conn = true → s.completed = true → env.health s.hc = true →
      env.health (s.hc + 1) = true → (Exec env q n s).2.resets = s.resets) ∧
    ((Exec env3 ("Q") 2 s3).1 = .ok ⟨true⟩ ∧ (Exec env3 ("Q") 2 s3).2.resets = 2) := by
  refine ⟨?_, ?_, ?_, by decide, by decide⟩
  · intro env q n s
    cases hA : activate env s with
    | mk e1 s1 =>
      have h1 : s1.resets = s.resets := by
        have := activate_resets env s
        rw [hA] at this
        exact this
      cases e1 with
      | error e =>
        simp only [Exec, hA]
        omega
      | ok u =>
        cases hP : pqexec env q s1 with
        | mk r s2 =>
          have h2 : s2.resets = s1.resets := by
            have := pqexec_resets env q s1
            rw [hP] at this
            exact this
          cases hL : execLoop env q n r s2 with
          | mk e2 s3 =>
            have h3 : s3.resets ≤ s2.resets + n := by
              have := execLoop_resets_le env q n r s2
              rw [hL] at this
              exact this
            cases e2 with
            | error e =>
              simp only [Exec, hA, hP, hL]
              omega
            | ok r2 =>
              simp only [Exec, hA, hP, hL, execTail_resets]
              omega
  · intro env q n s r h1 h2 hh hr
    simp [Exec, activate_open env s h1 h2 hh, pqexec, tick, h1, hr,
      execLoop_some, execTail_resets]
  · intro env q n s h1 h2 hh hh2
    simp only [Exec, activate_open env s h1 h2 hh]
    simp only [pqexec, tick, h1, if_true]
    cases hr : env.execR s.ec with
    | some r => simp [execLoop_some, execTail_resets]
    | none =>
      rw [execLoop_none_open env q n _ (by simp [h1]) (by simp [h2]) (by simpa using hh2)]
      simp only [execTail_resets]
      split <;> simp [tick]

/-- The empty string is the bottom of the lexicographic string order
(the initial value of `SetupState`'s `Last` tracker). -/
theorem empty_le (s : String) : ("" : String) ≤ s := by
  by_contra h
  simp [String.le_iff_toList_le] at h

theorem listenCount_cons_listen (ch a : String) (l : List Cmd) :
    listenCount ch (Cmd.listen a :: l) =
      listenCount ch l + (if a = ch then 1 else 0) := by
  by_cases h : a = ch <;> simp [listenCount, h]

theorem listenCount_cons_set (ch nm v : String) (l : List Cmd) :
    listenCount ch (Cmd.set nm v :: l) = listenCount ch l := by
  simp [listenCount]

theorem listenCount_append (ch : String) (l1 l2 : List Cmd) :
    listenCount ch (l1 ++ l2) = listenCount ch l1 + listenCount ch l2 := by
  simp [listenCount, List.filter_append]

theorem setCount_cons_listen (nm v a : String) (l : List Cmd) :
    setCount nm v (Cmd.listen a :: l) = setCount nm v l := by
  simp [setCount]

theorem setCount_cons_set (nm v a b : String) (l : List Cmd) :
    setCount nm v (Cmd.set a b :: l) =
      setCount nm v l + (if a = nm ∧ b = v then 1 else 0) := by
  by_cases h1 : a = nm <;> by_cases h2 : b = v <;> simp [setCount, h1, h2]

theorem setCount_append (nm v : String) (l1 l2 : List Cmd) :
    setCount nm v (l1 ++ l2) = setCount nm v l1 + setCount nm v l2 := by
  simp [setCount, List.filter_append]

/-- `SET` fragments contain no `LISTEN`s. -/
theorem listenCount_setList (ch : String) (l : List (String × String)) :
    listenCount ch (l.map (fun p => Cmd.set p.1 p.2)) = 0 := by
  induction l with
  | nil => rfl
  | cons a t ih => simp [listenCount_cons_set, ih]

/-- `LISTEN` fragments contain no `SET`s. -/
theorem setCount_listenCmds (nm v : String) : ∀ (l : List String) (last : String),
    setCount nm v (listenCmds l last) = 0 := by
  intro l
  induction l with
  | nil => intro last; rfl
  | cons a t ih =>
    intro last
    by_cases h : a ≠ last <;> simp [listenCmds, h, setCount_cons_listen, ih]

/-- The `Last`-tracking loop of `SetupState` emits exactly one `LISTEN`
for every distinct channel in the (key-sorted) receiver list other than
the initial sentinel value `last`, and none for `last` itself. -/
theorem listenCmds_count (ch : String) :
    ∀ (l : List String) (last : String), l.Pairwise (· ≤ ·) →
      (∀ x ∈ l, last ≤ x) →
      listenCount ch (listenCmds l last) = if ch ∈ l ∧ ch ≠ last then 1 else 0 := by
  intro l
  induction l with
  | nil => intro last _ _; simp [listenCmds, listenCount]
  | cons a t ih =>
    intro last hsort hlast
    rw [List.pairwise_cons] at hsort
    obtain ⟨ha, hsort'⟩ := hsort
    by_cases heq : a = last
    · have hlast' : ∀ x ∈ t, last ≤ x := fun x hx => heq ▸ ha x hx
      rw [show listenCmds (a :: t) last = listenCmds t last by
            simp [listenCmds, heq],
        ih last hsort' hlast']
      subst heq
      by_cases hch : ch = a
      · simp [hch]
      · simp [List.mem_cons, hch]
    · have hlaA : last ≤ a := hlast a (List.mem_cons_self a t)
      rw [show listenCmds (a :: t) last = Cmd.listen a :: listenCmds t a by
            simp [listenCmds, heq],
        listenCount_cons_listen, ih a hsort' ha]
      by_cases hch : ch = a
      · subst hch
        have hne : ch ≠ last := heq
        simp [List.mem_cons, hne]
      · have hcha : ¬(a = ch) := fun hx => hch hx.symm
        by_cases hmem : ch ∈ t
        · have hne : ch ≠ last := by
            intro hcl
            subst hcl
            exact heq (le_antisymm (ha ch hmem) hlaA)
          simp [List.mem_cons, hmem, hch, hcha, hne]
        · simp [List.mem_cons, hmem, hch, hcha]

/-- A key absent from the variable map receives no `SET` fragment. -/
theorem setCount_keys_not_mem (nm v : String) (l : List (String × String))
    (h : nm ∉ l.map Prod.fst) :
    setCount nm v (l.map (fun p => Cmd.set p.1 p.2)) = 0 := by
  induction l with
  | nil => rfl
  | cons a t ih =>
    simp only [List.map_cons, List.mem_cons, not_or] at h
    simp only [List.map_cons, setCount_cons_set, ih h.2]
    have hx : ¬(a.1 = nm ∧ a.2 = v) := fun hab => h.1 hab.1.symm
    simp [hx]

/-- With strictly sorted keys (the `std::map` invariant), the variable
map contributes exactly one `SET` fragment per entry. -/
theorem setCount_setList (nm v : String) : ∀ (l : List (String × String)),
    List.Pairwise (fun a b => a.1 < b.1) l →
    setCount nm v (l.map (fun p => Cmd.set p.1 p.2)) =
      if (nm, v) ∈ l then 1 else 0 := by
  intro l
  induction l with
  | nil => intro _; rfl
  | cons a t ih =>
    intro hp
    rw [List.pairwise_cons] at hp
    obtain ⟨ha, hp'⟩ := hp
    simp only [List.map_cons, setCount_cons_set, ih hp']
    by_cases hab : a.1 = nm ∧ a.2 = v
    · have hnm : nm ∉ t.map Prod.fst := by
        intro hm
        obtain ⟨p, hpmem, hpeq⟩ := List.mem_map.mp hm
        have hlt := ha p hpmem
        rw [hab.1, hpeq] at hlt
        exact lt_irrefl _ hlt
      have hmem : (nm, v) ∉ t := fun hm =>
        hnm (List.mem_map.mpr ⟨(nm, v), hm, rfl⟩)
      have haeq : a = (nm, v) := Prod.ext hab.1 hab.2
      simp [hab, hmem, haeq, List.mem_cons]
    · have hne : ¬((nm, v) = a) := by
        intro he
        exact hab ⟨by rw [← he], by rw [← he]⟩
      simp [hab, List.mem_cons, hne]

/-- Count of `LISTEN ch` fragments in the full restore batch. -/
theorem restoreCmds_listenCount (ch : String) (receivers : List (String × Nat))
    (vars : List (String × String))
    (hsort : (receivers.map Prod.fst).Pairwise (· ≤ ·)) (hch : ch ≠ "") :
    listenCount ch (restoreCmds receivers vars) =
      if ch ∈ receivers.map Prod.fst then 1 else 0 := by
  unfold restoreCmds
  rw [listenCount_append, listenCount_setList]
  by_cases hr : receivers = []
  · simp [hr, listenCount]
  · rw [if_neg hr, listenCmds_count ch _ ("") hsort (fun x _ => empty_le x)]
    rw [if_congr (and_iff_left hch) rfl rfl]
    omega

/-- Count of `SET nm=v` fragments in the full restore batch. -/
theorem restoreCmds_setCount (nm v : String) (receivers : List (String × Nat))
    (vars : List (String × String))
    (hvars : List.Pairwise (fun a b => a.1 < b.1) vars) :
    setCount nm v (restoreCmds receivers vars) =
      if (nm, v) ∈ vars then 1 else 0 := by
  unfold restoreCmds
  rw [setCount_append, setCount_setList nm v vars hvars]
  by_cases hr : receivers = []
  · simp [hr, setCount]
  · rw [if_neg hr, setCount_listenCmds]
    simp

/-- With a handle present, a healthy transport and a modern server, and
some shadow state to replay, `SetupState` succeeds: it repopulates the
capability set, marks every prepared statement unregistered, appends
exactly one batched restore query to the send trace, drains the pending
results and sets the completed flag. -/
theorem SetupState_ok (env : Env) (s : ConnState)
    (hconn : s.conn = true)
    (hh1 : env.health s.hc = true) (hh2 : env.health (s.hc + 1) = true)
    (hver : (90000 : Int) < env.newServerVersion) (hproto : 3 ≤ env.protocolVersion)
    (hne : ¬(s.receivers = [] ∧ s.vars = [])) :
    SetupState env s = (.ok (),
      { s with
          serverVersion := env.newServerVersion
          caps := true
          prepared := s.prepared.map
            (fun (p : String × PreparedDef) => (p.1, { p.2 with registered := false }))
          sent := s.sent ++ [renderCmds (restoreCmds s.receivers s.vars)]
          pending := []
          completed := true
          hc := s.hc + 2 }) := by
  have hv : ¬ env.newServerVersion ≤ 90000 := by omega
  have hp0 : ¬ env.protocolVersion = 0 := by omega
  have hp12 : ¬ (env.protocolVersion = 1 ∨ env.protocolVersion = 2) := by omega
  simp [SetupState, statusOk, is_open, tick, hconn, hh1, hh2, hv, hp0, hp12, hne]

/-- C1 counterexample: one receiver subscribed under the empty channel
name; after a successful reconnect `SetupState` succeeds and sends a
single batched request that contains no `LISTEN` at all (the batch is
empty), because the `Last` tracker is initialised to the empty string —
so the distinct channel of this receiver gets zero `LISTEN` commands,
not one. -/
theorem setupState_empty_channel_counterexample :
    sE.receivers = [((""), 7)] ∧
    (SetupState env0 sE).1 = .ok () ∧
    (SetupState env0 sE).2.sent = [("")] ∧
    restoreCmds sE.receivers sE.vars = ([] : List Cmd) ∧
    listenCount ("") (restoreCmds sE.receivers sE.vars) = 0 := by
  refine ⟨rfl, ?_, ?_, ?_, ?_⟩ <;> decide

/-- C1 (amended: one `LISTEN` per distinct *nonempty* channel — a
receiver registered under the empty channel name gets no `LISTEN`,
because the dedup tracker starts out holding the empty string):
whenever `SetupState` runs after a successful (re)connect with nonempty
shadow state, it appends exactly one batched request to the send trace
(a single round trip) containing exactly one `LISTEN` per distinct
nonempty channel of the sorted receiver multimap (not per listener) and
exactly one `SET` per shadow variable, and it drains all pending
results before returning. -/
theorem setupState_batches_listen_set (env : Env) (s : ConnState)
    (hconn : s.conn = true)
    (hh1 : env.health s.hc = true) (hh2 : env.health (s.hc + 1) = true)
    (hver : (90000 : Int) < env.newServerVersion) (hproto : 3 ≤ env.protocolVersion)
    (hsort : (s.receivers.map Prod.fst).Pairwise (· ≤ ·))
    (hvars : List.Pairwise (fun a b => a.1 < b.1) s.vars)
    (hne : ¬(s.receivers = [] ∧ s.vars = [])) :
    SetupState env s = (.ok (),
      { s with
          serverVersion := env.newServerVersion
          caps := true
          prepared := s.prepared.map
            (fun (p : String × PreparedDef) => (p.1, { p.2 with registered := false }))
          sent := s.sent ++ [renderCmds (restoreCmds s.receivers s.vars)]
          pending := []
          completed := true
          hc := s.hc + 2 }) ∧
    (∀ ch : String, ch ≠ "" →
      listenCount ch (restoreCmds s.receivers s.vars) =
        if ch ∈ s.receivers.map Prod.fst then 1 else 0) ∧
    (∀ nm v : String,
      setCount nm v (restoreCmds s.receivers s.vars) =
        if (nm, v) ∈ s.vars then 1 else 0) :=
  ⟨SetupState_ok env s hconn hh1 hh2 hver hproto hne,
   fun ch hch => restoreCmds_listenCount ch s.receivers s.vars hsort hch,
   fun nm v => restoreCmds_setCount nm v s.receivers s.vars hvars⟩

theorem setupState_batches_listen_set_witness :
    (sW.conn = true ∧ env0.health sW.hc = true ∧ env0.health (sW.hc + 1) = true ∧
      (90000 : Int) < env0.newServerVersion ∧ 3 ≤ env0.protocolVersion ∧
      (sW.receivers.map Prod.fst).Pairwise (· ≤ ·) ∧
      List.Pairwise (fun a b => a.1 < b.1) sW.vars ∧
      ¬(sW.receivers = [] ∧ sW.vars = [])) ∧
    listenCount ("a") (restoreCmds sW.receivers sW.vars) =
      (if ("a") ∈ sW.receivers.map Prod.fst then 1 else 0) :=
  ⟨⟨rfl, rfl, rfl, by decide, by decide, by
      show List.Pairwise (· ≤ ·) [("a" : String), ("a"), ("b")]
      repeat constructor
      all_goals simp_all [String.le_iff_toList_le]
      all_goals decide, by
      show List.Pairwise (fun a b => a.1 < b.1) [((("x") : String), ("1"))]
      simp, by decide⟩,
    (setupState_batches_listen_set env0 sW rfl rfl rfl (by decide) (by decide)
      (by
        show List.Pairwise (· ≤ ·) [("a" : String), ("a"), ("b")]
        repeat constructor
        all_goals simp_all [String.le_iff_toList_le]
        all_goals decide)
      (by
        show List.Pairwise (fun a b => a.1 < b.1) [((("x") : String), ("1"))]
        simp)
      (by decide)).2.1 ("a") (by decide)⟩

theorem exec_retry_policy_witness :
    (s3.conn = true ∧ s3.completed = true ∧ env0.health s3.hc = true ∧
      env0.execR s3.ec = some ⟨true⟩) ∧
    (Exec env0 ("Q") 5 s3).2.resets = s3.resets :=
  ⟨⟨rfl, rfl, rfl, rfl⟩,
    exec_retry_policy.2.1 env0 ("Q") 5 s3 ⟨true⟩ rfl rfl rfl rfl⟩

end Pqxx

